import Mathlib

/-!
Verification of the offline-first sync core of the cravings-pos repository.

The development shallowly embeds the TypeScript sources:
  * `src/lib/offlineDatabase.ts` — the Dexie (IndexedDB) local store: one list
    of rows per table, keyed by a string `id` (the `syncQueue` table by a
    numeric id, unused here).  `put` is upsert-by-key, `add` inserts a fresh
    row, `update` patches the rows matching a key, `delete` removes them,
    `clear` empties the table.
  * `src/lib/syncService.ts` — push (`syncOrdersToSupabase`,
    `syncInventoryToSupabase`), pull (`pullLatestFromSupabase`), the
    orchestrator `performFullSync` with its module-level `isSyncing` flag,
    and the offline order creation path (`createOrderOffline`).
  * the offline-first hooks file — `useUpdateOrderStatus`'s mutation body.
  * the offline storage file — `setCache` / `getCache` over `localStorage`.

Modelling conventions, stated once:
  * ISO-8601 timestamp strings are modelled as `Nat` instants (lexicographic
    order on ISO strings is chronological order, and the code only ever
    compares or stores them).  `Date.now()` / `new Date().toISOString()`
    become explicit `now : Nat` parameters.
  * Money amounts (`DECIMAL` columns, JS numbers) are modelled as `Int`;
    they are only copied around, never computed with, in the code at issue.
  * The remote backend (Supabase) is a passive record of tables; each remote
    call is modelled by the query it issues, and a call that can reject is
    driven by an explicit environment returning `Except String _`.
  * Dexie's `where('synced').equals(0)` is the code's idiom for selecting
    rows whose `synced` flag is false; it is modelled as a filter on the
    boolean field.
  * `JSON.stringify` / `JSON.parse` and `toString` / `parseInt` round-trips
    in the cache layer are modelled as identity injections.
-/

/-! ## Generic keyed-table operations (Dexie table primitives) -/

/-- Dexie `Table.put`: insert or replace the rows whose key equals the new
row's key. -/
def putBy {α : Type} (key : α → String) (t : List α) (r : α) : List α :=
  r :: t.filter (fun x => !(key x == key r))

/-- Dexie `Table.delete`: remove the rows with the given key. -/
def delBy {α : Type} (key : α → String) (t : List α) (k : String) : List α :=
  t.filter (fun x => !(key x == k))

/-- Dexie `Table.update`: patch the rows with the given key (no-op when the
key is absent). -/
def updateBy {α : Type} (key : α → String) (t : List α) (k : String)
    (patch : α → α) : List α :=
  t.map (fun x => if key x == k then patch x else x)

/-- Dexie `Table.bulkPut`: put each row in turn. -/
def bulkPutBy {α : Type} (key : α → String) (t : List α) (rows : List α) :
    List α :=
  rows.foldl (putBy key) t

/-! ## Local store row types (`offlineDatabase.ts` interfaces) -/

structure LocalMenuItem where
  id : String
  name : String
  description : Option String
  price : Int
  category : String
  gst_percentage : Int
  is_available : Bool
  is_veg : Bool
  display_order : Nat
  image_url : Option String
  synced : Bool
  updated_at : Nat
  deriving DecidableEq

structure LocalInventoryItem where
  id : String
  name : String
  unit : String
  current_stock : Int
  minimum_stock : Int
  cost_per_unit : Int
  is_active : Bool
  synced : Bool
  updated_at : Nat
  deriving DecidableEq

structure LocalOrder where
  id : String
  order_number : Nat
  customer_name : Option String
  table_number : Option String
  bill_type : String
  subtotal : Int
  tax_amount : Int
  discount_amount : Int
  total_amount : Int
  status : String
  payment_method : Option String
  created_by : Option String
  created_at : Nat
  updated_at : Nat
  synced : Bool
  sync_error : Option String
  deriving DecidableEq

structure LocalOrderItem where
  id : String
  order_id : String
  menu_item_id : String
  menu_item_name : String
  quantity : Nat
  unit_price : Int
  gst_percentage : Int
  gst_amount : Int
  total_price : Int
  notes : Option String
  synced : Bool
  deriving DecidableEq

structure LocalDailyClosing where
  id : String
  closing_date : Nat
  submitted_by : String
  total_orders : Nat
  total_revenue : Int
  notes : Option String
  created_at : Nat
  synced : Bool
  deriving DecidableEq

structure LocalStockVerification where
  id : String
  daily_closing_id : String
  inventory_item_id : String
  system_stock : Int
  physical_stock : Int
  wastage : Int
  notes : Option String
  synced : Bool
  deriving DecidableEq

structure LocalInventoryTransaction where
  id : String
  inventory_item_id : String
  transaction_type : String
  quantity : Int
  previous_stock : Int
  new_stock : Int
  reference_id : Option String
  notes : Option String
  created_at : Nat
  synced : Bool
  deriving DecidableEq

structure LocalRecipe where
  id : String
  menu_item_id : String
  inventory_item_id : String
  quantity_required : Int
  unit : String
  synced : Bool
  deriving DecidableEq

structure SyncQueueEntry where
  id : Nat
  table : String
  operation : String
  data : String
  created_at : Nat
  retries : Nat
  last_error : Option String
  deriving DecidableEq

/-- A `settings` row (`AppSettings`): the only key ever used is
`lastSyncTime`, whose ISO-string value is modelled as a `Nat` instant. -/
structure AppSetting where
  key : String
  value : Nat
  deriving DecidableEq

/-- The `KitchenPOSDatabase` table set. -/
structure LocalDB where
  menuItems : List LocalMenuItem
  inventoryItems : List LocalInventoryItem
  orders : List LocalOrder
  orderItems : List LocalOrderItem
  dailyClosings : List LocalDailyClosing
  stockVerifications : List LocalStockVerification
  inventoryTransactions : List LocalInventoryTransaction
  recipes : List LocalRecipe
  syncQueue : List SyncQueueEntry
  settings : List AppSetting
  deriving DecidableEq

/-! ## Settings helpers (`getLastSyncTime` / `setLastSyncTime`) -/

def getLastSyncTime (db : LocalDB) : Option Nat :=
  (db.settings.find? (fun s => s.key == "lastSyncTime")).map (fun s => s.value)

def setLastSyncTime (time : Nat) (db : LocalDB) : LocalDB :=
  { db with
    settings := putBy (fun s => s.key) db.settings
      { key := "lastSyncTime", value := time } }

/-- `clearLocalDatabase` (offlineDatabase.ts): clears orders, orderItems,
dailyClosings, stockVerifications, inventoryTransactions and syncQueue;
the comment in the source says menu items and inventory are kept for
faster reload. -/
def clearLocalDatabase (db : LocalDB) : LocalDB :=
  { db with
      orders := []
      orderItems := []
      dailyClosings := []
      stockVerifications := []
      inventoryTransactions := []
      syncQueue := [] }

/-! ## Remote backend model (Supabase tables as seen by the pull queries) -/

structure RemoteMenuItem where
  id : String
  name : String
  description : Option String
  price : Int
  category : String
  gst_percentage : Int
  is_available : Bool
  is_veg : Bool
  display_order : Nat
  image_url : Option String
  updated_at : Nat
  deriving DecidableEq

structure RemoteInventoryItem where
  id : String
  name : String
  unit : String
  current_stock : Int
  minimum_stock : Int
  cost_per_unit : Int
  is_active : Bool
  updated_at : Nat
  deriving DecidableEq

structure RemoteOrderItem where
  id : String
  order_id : String
  menu_item_id : String
  quantity : Nat
  unit_price : Int
  gst_percentage : Int
  gst_amount : Int
  total_price : Int
  notes : Option String
  deriving DecidableEq

structure RemoteOrder where
  id : String
  order_number : Nat
  customer_name : Option String
  table_number : Option String
  bill_type : String
  subtotal : Int
  tax_amount : Int
  discount_amount : Int
  total_amount : Int
  status : String
  payment_method : Option String
  created_by : Option String
  created_at : Nat
  updated_at : Nat
  order_items : List RemoteOrderItem
  deriving DecidableEq

structure RemoteDailyClosing where
  id : String
  closing_date : Nat
  submitted_by : String
  total_orders : Nat
  total_revenue : Int
  notes : Option String
  created_at : Nat
  updated_at : Nat
  deriving DecidableEq

structure RemoteStockVerification where
  id : String
  daily_closing_id : String
  inventory_item_id : String
  system_stock : Int
  physical_stock : Int
  wastage : Int
  notes : Option String
  deriving DecidableEq

structure RemoteDB where
  menu_items : List RemoteMenuItem
  inventory_items : List RemoteInventoryItem
  orders : List RemoteOrder
  daily_closing_logs : List RemoteDailyClosing
  stock_verifications : List RemoteStockVerification
  deriving DecidableEq

/-! ### Row conversions applied by the pull (`{ ...item, synced: true, ... }`) -/

def remoteMenuToLocal (now : Nat) (m : RemoteMenuItem) : LocalMenuItem :=
  { id := m.id, name := m.name, description := m.description, price := m.price
    category := m.category, gst_percentage := m.gst_percentage
    is_available := m.is_available, is_veg := m.is_veg
    display_order := m.display_order, image_url := m.image_url
    synced := true, updated_at := now }

def remoteInvToLocal (now : Nat) (i : RemoteInventoryItem) : LocalInventoryItem :=
  { id := i.id, name := i.name, unit := i.unit
    current_stock := i.current_stock, minimum_stock := i.minimum_stock
    cost_per_unit := i.cost_per_unit, is_active := i.is_active
    synced := true, updated_at := now }

def remoteOrderToLocal (o : RemoteOrder) : LocalOrder :=
  { id := o.id, order_number := o.order_number
    customer_name := o.customer_name, table_number := o.table_number
    bill_type := o.bill_type, subtotal := o.subtotal
    tax_amount := o.tax_amount, discount_amount := o.discount_amount
    total_amount := o.total_amount, status := o.status
    payment_method := o.payment_method, created_by := o.created_by
    created_at := o.created_at, updated_at := o.updated_at
    synced := true, sync_error := none }

def remoteOrderItemToLocal (i : RemoteOrderItem) : LocalOrderItem :=
  { id := i.id, order_id := i.order_id, menu_item_id := i.menu_item_id
    menu_item_name := "", quantity := i.quantity, unit_price := i.unit_price
    gst_percentage := i.gst_percentage, gst_amount := i.gst_amount
    total_price := i.total_price, notes := i.notes, synced := true }

def remoteClosingToLocal (c : RemoteDailyClosing) : LocalDailyClosing :=
  { id := c.id, closing_date := c.closing_date, submitted_by := c.submitted_by
    total_orders := c.total_orders, total_revenue := c.total_revenue
    notes := c.notes, created_at := c.created_at, synced := true }

def remoteVerificationToLocal (v : RemoteStockVerification) :
    LocalStockVerification :=
  { id := v.id, daily_closing_id := v.daily_closing_id
    inventory_item_id := v.inventory_item_id, system_stock := v.system_stock
    physical_stock := v.physical_stock, wastage := v.wastage
    notes := v.notes, synced := true }

/-! ### The four pull queries issued by `pullLatestFromSupabase`

None of them mentions `updated_at` or the stored last-sync timestamp: the
selection is the fixed bounded snapshot (`is_available` menu items,
`is_active` inventory items, orders of the trailing seven days, the thirty
most recent daily closings). -/

def menuQuery (r : RemoteDB) : List RemoteMenuItem :=
  r.menu_items.filter (fun m => m.is_available)

def inventoryQuery (r : RemoteDB) : List RemoteInventoryItem :=
  r.inventory_items.filter (fun i => i.is_active)

/-- Seven days in milliseconds, the `weekAgo` cutoff. -/
def weekMs : Nat := 7 * 24 * 60 * 60 * 1000

/-- `gte('created_at', weekAgo.toISOString())`; the `order by created_at`
clause only affects iteration order of the keyed upserts and is omitted. -/
def ordersQuery (r : RemoteDB) (now : Nat) : List RemoteOrder :=
  r.orders.filter (fun o => now - weekMs ≤ o.created_at)

/-- Insert a closing into a list sorted by `closing_date` descending. -/
def insertClosingDesc (c : RemoteDailyClosing) :
    List RemoteDailyClosing → List RemoteDailyClosing
  | [] => [c]
  | x :: xs =>
      if x.closing_date ≤ c.closing_date then c :: x :: xs
      else x :: insertClosingDesc c xs

/-- `order('closing_date', descending).limit(30)`. -/
def closingsQuery (r : RemoteDB) : List RemoteDailyClosing :=
  (r.daily_closing_logs.foldr insertClosingDesc []).take 30

/-- `in('daily_closing_id', closingIds)`. -/
def verificationsQuery (r : RemoteDB) (closingIds : List String) :
    List RemoteStockVerification :=
  r.stock_verifications.filter (fun v => closingIds.contains v.daily_closing_id)

/-! ### Pull application, block by block

A Supabase error response leaves `data` null and the corresponding `if
(data)` block is skipped without throwing; the only throwing path of
`pullLatestFromSupabase` is a rejected await, which is modelled at the
orchestration level (`FullSyncEnv.pull`).  Within a non-throwing pull each
query yields its data, so the blocks below are unconditional. -/

/-- Menu block: `db.menuItems.clear()` then `bulkPut` of the fetched rows —
note the clear is unconditional, regardless of local `synced` flags. -/
def pullMenuBlock (r : RemoteDB) (now : Nat) (db : LocalDB) : LocalDB :=
  { db with
    menuItems := bulkPutBy (fun m => m.id) []
      ((menuQuery r).map (remoteMenuToLocal now)) }

/-- Inventory block: remembers unsynced rows, clears the table, and re-adds
only the fetched rows, keeping `current_stock` (and `synced = false`) for
ids that had a local unsynced version. -/
def pullInventoryBlock (r : RemoteDB) (now : Nat) (db : LocalDB) : LocalDB :=
  { db with
    inventoryItems :=
      bulkPutBy (fun i => i.id) []
        ((inventoryQuery r).map (fun item =>
          match (db.inventoryItems.filter (fun i => !i.synced)).find?
              (fun i => i.id == item.id) with
          | some localItem =>
              { remoteInvToLocal now item with
                current_stock := localItem.current_stock, synced := false }
          | none => remoteInvToLocal now item)) }

/-- One pulled order: skipped when its id is locally unsynced, otherwise the
order row and each nested item row are `put` with `synced = true`. -/
def applyPulledOrder (unsyncedIds : List String)
    (st : List LocalOrder × List LocalOrderItem) (ro : RemoteOrder) :
    List LocalOrder × List LocalOrderItem :=
  if unsyncedIds.contains ro.id then st
  else
    (putBy (fun o => o.id) st.1 (remoteOrderToLocal ro),
      ro.order_items.foldl
        (fun items i => putBy (fun x => x.id) items (remoteOrderItemToLocal i))
        st.2)

/-- Orders block of the pull. -/
def pullOrdersBlock (r : RemoteDB) (now : Nat) (db : LocalDB) : LocalDB :=
  let unsyncedIds := (db.orders.filter (fun o => !o.synced)).map (fun o => o.id)
  let st := (ordersQuery r now).foldl (applyPulledOrder unsyncedIds)
    (db.orders, db.orderItems)
  { db with orders := st.1, orderItems := st.2 }

/-- Daily-closings block: unsynced closings are skipped, the rest are `put`
with `synced = true`; then the stock verifications of the pulled closings
are `put` unconditionally. -/
def pullClosingsBlock (r : RemoteDB) (db : LocalDB) : LocalDB :=
  let closingsData := closingsQuery r
  let unsyncedIds :=
    (db.dailyClosings.filter (fun c => !c.synced)).map (fun c => c.id)
  let newClosings := closingsData.foldl
    (fun t c =>
      if unsyncedIds.contains c.id then t
      else putBy (fun x => x.id) t (remoteClosingToLocal c))
    db.dailyClosings
  let closingIds := closingsData.map (fun c => c.id)
  let newVerifs :=
    if closingIds.isEmpty then db.stockVerifications
    else (verificationsQuery r closingIds).foldl
      (fun t v => putBy (fun x => x.id) t (remoteVerificationToLocal v))
      db.stockVerifications
  { db with dailyClosings := newClosings, stockVerifications := newVerifs }

/-- `pullLatestFromSupabase` (syncService.ts): menu, inventory, orders,
then daily closings with their stock verifications. -/
def pullLatestFromSupabase (r : RemoteDB) (now : Nat) (db : LocalDB) :
    LocalDB :=
  pullClosingsBlock r
    (pullOrdersBlock r now (pullInventoryBlock r now (pullMenuBlock r now db)))

/-! ## Push phase (`syncOrdersToSupabase`, `syncInventoryToSupabase`)

The remote insert of an order sends a subset of the local row's fields —
notably neither the local `id` nor the local `order_number` — and receives
the remote-assigned id and order number.  The remote behaviour is an
explicit environment of `Except`-valued calls. -/

/-- The body of `supabase.from('orders').insert({...})` in the push loop:
no `id`, no `order_number`, no `updated_at`, no sync fields. -/
structure OrderInsertPayload where
  customer_name : Option String
  table_number : Option String
  bill_type : String
  subtotal : Int
  tax_amount : Int
  discount_amount : Int
  total_amount : Int
  status : String
  payment_method : Option String
  created_by : Option String
  created_at : Nat
  deriving DecidableEq

def orderPayload (o : LocalOrder) : OrderInsertPayload :=
  { customer_name := o.customer_name, table_number := o.table_number
    bill_type := o.bill_type, subtotal := o.subtotal
    tax_amount := o.tax_amount, discount_amount := o.discount_amount
    total_amount := o.total_amount, status := o.status
    payment_method := o.payment_method, created_by := o.created_by
    created_at := o.created_at }

/-- One row of the `order_items` bulk insert: keyed by the remote order id,
without the local item `id` and without `menu_item_name`. -/
structure OrderItemInsertPayload where
  order_id : String
  menu_item_id : String
  quantity : Nat
  unit_price : Int
  gst_percentage : Int
  gst_amount : Int
  total_price : Int
  notes : Option String
  deriving DecidableEq

def orderItemPayload (newOrderId : String) (it : LocalOrderItem) :
    OrderItemInsertPayload :=
  { order_id := newOrderId, menu_item_id := it.menu_item_id
    quantity := it.quantity, unit_price := it.unit_price
    gst_percentage := it.gst_percentage, gst_amount := it.gst_amount
    total_price := it.total_price, notes := it.notes }

/-- Remote behaviour of the two inserts used by the order push. -/
structure PushEnv where
  insertOrder : OrderInsertPayload → Except String (String × Nat)
  insertItems : String → List OrderItemInsertPayload → Except String Unit

structure PushRes where
  success : Nat
  failed : Nat
  deriving DecidableEq

structure PushState where
  orders : List LocalOrder
  orderItems : List LocalOrderItem
  res : PushRes
  deriving DecidableEq

/-- `if (itemsToInsert.length > 0)` guard around the `order_items` bulk
insert: an empty payload skips the remote call. -/
def itemsInsertResult (env : PushEnv) (newId : String)
    (itemsToInsert : List OrderItemInsertPayload) : Except String Unit :=
  if itemsToInsert.isEmpty then Except.ok ()
  else env.insertItems newId itemsToInsert

/-- The remote half of one push-loop iteration: insert the order (without
its local id), then insert its items keyed by the remote-assigned id; the
first rejection aborts the iteration with its message (both rejections land
in the same `catch`). -/
def pushAttempt (env : PushEnv) (localOrder : LocalOrder)
    (orderItems : List LocalOrderItem) : Except String (String × Nat) :=
  match env.insertOrder (orderPayload localOrder) with
  | Except.error e => Except.error e
  | Except.ok (newId, newNumber) =>
      match itemsInsertResult env newId
          (orderItems.map (orderItemPayload newId)) with
      | Except.error e => Except.error e
      | Except.ok _ => Except.ok (newId, newNumber)

/-- The local re-insert after a successful remote order insert: same
business fields, the remote-assigned id and order number, `synced = true`
and `sync_error` cleared. -/
def remappedOrder (localOrder : LocalOrder) (newId : String)
    (newNumber : Nat) : LocalOrder :=
  { localOrder with
    id := newId, order_number := newNumber
    synced := true, sync_error := none }

/-- One iteration of the push loop over a previously selected unsynced
order: fetch its items, run the remote inserts, and on success delete the
local-origin order row, re-insert it under the remote id with
`synced = true` and `sync_error` cleared, and delete the local item rows.
Any failure is caught: the order row is patched with `sync_error` and the
loop moves on. -/
def pushOrderStep (env : PushEnv) (st : PushState) (localOrder : LocalOrder) :
    PushState :=
  let orderItems := st.orderItems.filter (fun it => it.order_id == localOrder.id)
  match pushAttempt env localOrder orderItems with
  | Except.error e =>
      { st with
        orders := updateBy (fun o => o.id) st.orders localOrder.id
          (fun o => { o with sync_error := some e })
        res := { st.res with failed := st.res.failed + 1 } }
  | Except.ok (newId, newNumber) =>
      { st with
        orders := putBy (fun o => o.id)
          (delBy (fun o => o.id) st.orders localOrder.id)
          (remappedOrder localOrder newId newNumber)
        orderItems := orderItems.foldl
          (fun t it => delBy (fun x => x.id) t it.id) st.orderItems
        res := { st.res with success := st.res.success + 1 } }

/-- `syncOrdersToSupabase`: select the unsynced orders once, then run the
per-order loop; the outer try/catch returns the accumulated counts either
way, so the function never throws. -/
def syncOrdersToSupabase (env : PushEnv) (db : LocalDB) : LocalDB × PushRes :=
  let unsyncedOrders := db.orders.filter (fun o => !o.synced)
  let st := unsyncedOrders.foldl (pushOrderStep env)
    { orders := db.orders, orderItems := db.orderItems
      res := { success := 0, failed := 0 } }
  ({ db with orders := st.orders, orderItems := st.orderItems }, st.res)

/-- Remote behaviour of the inventory stock update. -/
structure InventoryPushEnv where
  updateStock : String → Int → Nat → Except String Unit

/-- `syncInventoryToSupabase`: push `current_stock` for each unsynced
inventory row; mark `synced = true` on success, count a failure otherwise
(no `sync_error` is recorded for inventory). -/
def syncInventoryToSupabase (env : InventoryPushEnv) (now : Nat)
    (db : LocalDB) : LocalDB × PushRes :=
  let unsynced := db.inventoryItems.filter (fun i => !i.synced)
  let st := unsynced.foldl
    (fun (st : List LocalInventoryItem × PushRes) item =>
      match env.updateStock item.id item.current_stock now with
      | Except.ok _ =>
          (updateBy (fun i => i.id) st.1 item.id
            (fun i => { i with synced := true }),
            { st.2 with success := st.2.success + 1 })
      | Except.error _ =>
          (st.1, { st.2 with failed := st.2.failed + 1 }))
    (db.inventoryItems, ({ success := 0, failed := 0 } : PushRes))
  ({ db with inventoryItems := st.1 }, st.2)

/-! ## Full sync orchestration (`performFullSync`) -/

/-- The status object delivered to `subscribeSyncStatus` listeners. -/
structure SyncStatus where
  isSyncing : Bool
  lastSync : Option Nat
  pendingCount : Nat
  error : Option String
  deriving DecidableEq

/-- Module state of syncService.ts: the single-flight `isSyncing` flag, the
local store, and the sequence of statuses delivered to listeners. -/
structure SyncState where
  isSyncing : Bool
  db : LocalDB
  notes : List SyncStatus
  deriving DecidableEq

def mkSyncStatus (st : SyncState) (error : Option String) : SyncStatus :=
  { isSyncing := st.isSyncing
    lastSync := getLastSyncTime st.db
    pendingCount := (st.db.orders.filter (fun o => !o.synced)).length +
      (st.db.orderItems.filter (fun i => !i.synced)).length +
      st.db.syncQueue.length
    error := error }

def notifySyncStatus (error : Option String) (st : SyncState) : SyncState :=
  { st with notes := st.notes ++ [mkSyncStatus st error] }

/-- The externally visible work phases of one `performFullSync` call. -/
inductive SyncPhase where
  | pushOrders
  | pushInventory
  | pullPhase
  | setTimestamp
  deriving DecidableEq

/-- Environment of one full sync cycle: connectivity, remote push
behaviour, and the pull outcome (`Except.error` models
`pullLatestFromSupabase` rethrowing a rejected await). -/
structure FullSyncEnv where
  online : Bool
  pushEnv : PushEnv
  invEnv : InventoryPushEnv
  pull : Except String RemoteDB
  now : Nat

/-- `performFullSync`: single-flight guard, offline guard, then push
orders, push inventory, pull, and set the last-sync timestamp; a pull
throw is caught, reported to listeners, and the `finally` block clears the
flag and notifies again.  The returned list records which phases ran. -/
def performFullSync (env : FullSyncEnv) (st : SyncState) :
    SyncState × List SyncPhase :=
  if st.isSyncing then (st, [])
  else if !env.online then (st, [])
  else
    let st1 := notifySyncStatus none { st with isSyncing := true }
    let pushed := syncOrdersToSupabase env.pushEnv st1.db
    let invPushed := syncInventoryToSupabase env.invEnv env.now pushed.1
    match env.pull with
    | Except.ok r =>
        let db3 := setLastSyncTime env.now
          (pullLatestFromSupabase r env.now invPushed.1)
        let st2 := notifySyncStatus none { st1 with db := db3 }
        let st3 := notifySyncStatus none { st2 with isSyncing := false }
        (st3, [SyncPhase.pushOrders, SyncPhase.pushInventory,
          SyncPhase.pullPhase, SyncPhase.setTimestamp])
    | Except.error e =>
        let st2 := notifySyncStatus (some e) { st1 with db := invPushed.1 }
        let st3 := notifySyncStatus none { st2 with isSyncing := false }
        (st3, [SyncPhase.pushOrders, SyncPhase.pushInventory])

/-! ## Offline order creation (`createOrderOffline`)

`createOrderOffline` resolves `generateOrderNumber` to the helper defined
in syncService.ts itself (the file defines its own, non-exported helper
and does not import the one from offlineDatabase.ts, which it shadows).
Both helpers are embedded below under their module's namespace. -/

namespace SyncService

/-- The helper at the bottom of syncService.ts:
`(lastOrder?.order_number || 0) + 1` where `lastOrder` is the row with the
largest `order_number`. -/
def generateOrderNumber (orders : List LocalOrder) : Nat :=
  (orders.foldl (fun m o => max m o.order_number) 0) + 1

end SyncService

namespace OfflineDatabase

/-- The helper in offlineDatabase.ts: same maximum, then pushed into the
reserved offline range starting at 9000000.  Not called by
`createOrderOffline`. -/
def generateOrderNumber (orders : List LocalOrder) : Nat :=
  let lastNumber := orders.foldl (fun m o => max m o.order_number) 0
  max (lastNumber + 1) 9000000

end OfflineDatabase

/-- The `Omit<LocalOrder, 'id' | 'order_number' | 'synced' | 'created_at' |
'updated_at'>` argument of `createOrderOffline`. -/
structure NewOrderInput where
  customer_name : Option String
  table_number : Option String
  bill_type : String
  subtotal : Int
  tax_amount : Int
  discount_amount : Int
  total_amount : Int
  status : String
  payment_method : Option String
  created_by : Option String
  sync_error : Option String
  deriving DecidableEq

/-- The `Omit<LocalOrderItem, 'id' | 'order_id' | 'synced'>` item argument. -/
structure NewOrderItemInput where
  menu_item_id : String
  menu_item_name : String
  quantity : Nat
  unit_price : Int
  gst_percentage : Int
  gst_amount : Int
  total_price : Int
  notes : Option String
  deriving DecidableEq

/-- `` `local_${Date.now()}_${Math.random().toString(36).substr(2, 9)}` ``:
the reserved local-origin order id. -/
def mintLocalOrderId (nowMs : Nat) (rand : String) : String :=
  "local_" ++ toString nowMs ++ "_" ++ rand

def mkOfflineItem (orderId : String) (nowMs : Nat) (rand : String)
    (item : NewOrderItemInput) : LocalOrderItem :=
  { id := "item_" ++ toString nowMs ++ "_" ++ rand
    order_id := orderId
    menu_item_id := item.menu_item_id, menu_item_name := item.menu_item_name
    quantity := item.quantity, unit_price := item.unit_price
    gst_percentage := item.gst_percentage, gst_amount := item.gst_amount
    total_price := item.total_price, notes := item.notes
    synced := false }

def mkOfflineItems (orderId : String) (nowMs : Nat) (itemRand : Nat → String)
    (items : List NewOrderItemInput) : List LocalOrderItem :=
  items.enum.map (fun p => mkOfflineItem orderId nowMs (itemRand p.1) p.2)

/-- `createOrderOffline`: mint the local-origin id and order number, insert
the order and its items locally with `synced = false`, and return the new
order at once.  Dexie `add` under a freshly minted key is modelled as list
extension.  The opportunistic `syncOrdersToSupabase()` kicked off when
`navigator.onLine` is explicitly not awaited by the source (fire and
forget), so it is not part of this function's effect. -/
def createOrderOffline (order : NewOrderInput) (items : List NewOrderItemInput)
    (nowMs : Nat) (rand : String) (itemRand : Nat → String) (db : LocalDB) :
    LocalOrder × LocalDB :=
  let orderId := mintLocalOrderId nowMs rand
  let orderNumber := SyncService.generateOrderNumber db.orders
  let newOrder : LocalOrder :=
    { id := orderId, order_number := orderNumber
      customer_name := order.customer_name, table_number := order.table_number
      bill_type := order.bill_type, subtotal := order.subtotal
      tax_amount := order.tax_amount, discount_amount := order.discount_amount
      total_amount := order.total_amount, status := order.status
      payment_method := order.payment_method, created_by := order.created_by
      created_at := nowMs, updated_at := nowMs
      synced := false, sync_error := order.sync_error }
  let newItems := mkOfflineItems orderId nowMs itemRand items
  (newOrder, { db with
    orders := newOrder :: db.orders
    orderItems := newItems ++ db.orderItems })

/-! ## Order status update (`useUpdateOrderStatus` mutation body) -/

/-- `String.startsWith` (byte-level prefix comparison), modelled over the
character list. -/
def strStarts (p s : String) : Bool :=
  p.toList.isPrefixOf s.toList

/-- The guard used by `useUpdateOrderStatus`:
`orderId.startsWith('offline_')`. -/
def isOfflineId (orderId : String) : Bool :=
  strStarts "offline_" orderId

/-- A remote `orders` update issued by the status path, keyed by `eq('id',
orderId)`. -/
structure RemoteStatusUpdate where
  order_id : String
  status : String
  deriving DecidableEq

structure StatusUpdateEnv where
  online : Bool
  remoteUpdate : String → String → Nat → Except String Unit

/-- The mutation body: update the local row (`synced = false`), then, when
online and the id does not carry the `offline_` marker, issue the remote
update keyed by the id and on success mark the row `synced = true` (a
rejection is caught and only logged).  The returned list records every
remote update issued. -/
def updateOrderStatus (env : StatusUpdateEnv) (orderId status : String)
    (now : Nat) (db : LocalDB) : LocalDB × List RemoteStatusUpdate :=
  let db1 := { db with
    orders := updateBy (fun o => o.id) db.orders orderId
      (fun o => { o with status := status, synced := false, updated_at := now }) }
  if env.online && !(isOfflineId orderId) then
    match env.remoteUpdate orderId status now with
    | Except.ok _ =>
        ({ db1 with
          orders := updateBy (fun o => o.id) db1.orders orderId
            (fun o => { o with synced := true }) },
          [{ order_id := orderId, status := status }])
    | Except.error _ => (db1, [{ order_id := orderId, status := status }])
  else (db1, [])

/-! ## Cache layer (`setCache` / `getCache` over `localStorage`) -/

/-- A `localStorage` slot holds either cached data (a JSON string, kept
abstract as `α`) or a stringified expiry instant (kept as `Nat`). -/
inductive LSValue (α : Type) where
  | dataVal (v : α)
  | expiryVal (t : Nat)
  deriving DecidableEq

abbrev LocalStorage (α : Type) := List (String × LSValue α)

def lsSet {α : Type} (st : LocalStorage α) (k : String) (v : LSValue α) :
    LocalStorage α :=
  (k, v) :: st.filter (fun p => !(p.1 == k))

def lsGet {α : Type} (st : LocalStorage α) (k : String) : Option (LSValue α) :=
  (st.find? (fun p => p.1 == k)).map (fun p => p.2)

def lsRemove {α : Type} (st : LocalStorage α) (k : String) : LocalStorage α :=
  st.filter (fun p => !(p.1 == k))

def cacheKeyOf (key : String) : String := "kitchen-pos-cache-" ++ key

def expiryKeyOf (key : String) : String := "kitchen-pos-expiry-" ++ key

/-- `CACHE_DURATIONS[key] || CACHE_DURATIONS.default`, in milliseconds. -/
def cacheDuration (key : String) : Nat :=
  if key == "menuItems" then 60 * 60 * 1000
  else if key == "inventoryItems" then 15 * 60 * 1000
  else if key == "orders" then 5 * 60 * 1000
  else if key == "profiles" then 30 * 60 * 1000
  else if key == "closingLogs" then 60 * 60 * 1000
  else 10 * 60 * 1000

/-- `setCache`: store the value and its expiry `Date.now() + duration`
under the two prefixed keys. -/
def setCache {α : Type} (key : String) (data : α) (now : Nat)
    (st : LocalStorage α) : LocalStorage α :=
  lsSet (lsSet st (cacheKeyOf key) (LSValue.dataVal data)) (expiryKeyOf key)
    (LSValue.expiryVal (now + cacheDuration key))

/-- `getCache`: miss when no expiry entry exists; evict both entries and
miss when `Date.now() > expiry`; otherwise return the stored value.  A
wrong-variant slot (unreachable through `setCache`) reads as a miss. -/
def getCache {α : Type} (key : String) (now : Nat) (st : LocalStorage α) :
    Option α × LocalStorage α :=
  match lsGet st (expiryKeyOf key) with
  | none => (none, st)
  | some (LSValue.dataVal _) => (none, st)
  | some (LSValue.expiryVal expiry) =>
      if expiry < now then
        (none, lsRemove (lsRemove st (cacheKeyOf key)) (expiryKeyOf key))
      else
        match lsGet st (cacheKeyOf key) with
        | some (LSValue.dataVal v) => (some v, st)
        | _ => (none, st)

/-! ## Concrete fixtures used by witnesses and counterexamples -/

def emptyDB : LocalDB :=
  { menuItems := [], inventoryItems := [], orders := [], orderItems := []
    dailyClosings := [], stockVerifications := [], inventoryTransactions := []
    recipes := [], syncQueue := [], settings := [] }

def trivialPushEnv : PushEnv :=
  { insertOrder := fun _ => Except.ok ("r1", 1)
    insertItems := fun _ _ => Except.ok () }

def trivialInvEnv : InventoryPushEnv :=
  { updateStock := fun _ _ _ => Except.ok () }

def stC4 : SyncState := { isSyncing := true, db := emptyDB, notes := [] }

def envC4 : FullSyncEnv :=
  { online := true, pushEnv := trivialPushEnv, invEnv := trivialInvEnv
    pull := Except.error "network down", now := 5 }

/-! ## C3 — the pull is always the bounded snapshot, never a delta -/

def menuC3 : RemoteMenuItem :=
  { id := "m1", name := "Tea", description := none, price := 10
    category := "beverages", gst_percentage := 5, is_available := true
    is_veg := true, display_order := 1, image_url := none, updated_at := 10 }

def remoteC3 : RemoteDB :=
  { menu_items := [menuC3], inventory_items := [], orders := []
    daily_closing_logs := [], stock_verifications := [] }

def dbC3 : LocalDB :=
  { emptyDB with settings := [{ key := "lastSyncTime", value := 100 }] }

/-! ## C7 — a locally-minted order id reaches the remote backend -/

def orderC7 : LocalOrder :=
  { id := "local_1700_abc", order_number := 7, customer_name := none
    table_number := none, bill_type := "tax_invoice", subtotal := 100
    tax_amount := 5, discount_amount := 0, total_amount := 105
    status := "pending", payment_method := none, created_by := none
    created_at := 1700, updated_at := 1700, synced := false
    sync_error := none }

def dbC7 : LocalDB := { emptyDB with orders := [orderC7] }

def envC7 : StatusUpdateEnv :=
  { online := true, remoteUpdate := fun _ _ _ => Except.ok () }

def orderInpC8 : NewOrderInput :=
  { customer_name := none, table_number := none, bill_type := "tax_invoice"
    subtotal := 100, tax_amount := 0, discount_amount := 0
    total_amount := 100, status := "pending", payment_method := none
    created_by := none, sync_error := none }

def orderC8 : LocalOrder :=
  { id := "r5", order_number := 5, customer_name := none, table_number := none
    bill_type := "tax_invoice", subtotal := 50, tax_amount := 0
    discount_amount := 0, total_amount := 50, status := "completed"
    payment_method := none, created_by := none, created_at := 1000
    updated_at := 1000, synced := true, sync_error := none }

def dbC8 : LocalDB := { emptyDB with orders := [orderC8] }

def orderC1 : LocalOrder :=
  { id := "local_9_z", order_number := 2, customer_name := some "Asha"
    table_number := some "4", bill_type := "estimate", subtotal := 80
    tax_amount := 0, discount_amount := 0, total_amount := 80
    status := "pending", payment_method := none, created_by := none
    created_at := 650, updated_at := 650, synced := false
    sync_error := none }

def itemC1 : LocalOrderItem :=
  { id := "item_9_z", order_id := "local_9_z", menu_item_id := "m1"
    menu_item_name := "Tea", quantity := 8, unit_price := 10
    gst_percentage := 0, gst_amount := 0, total_price := 80, notes := none
    synced := false }

def closingC1 : LocalDailyClosing :=
  { id := "offline_9_c", closing_date := 640, submitted_by := "u1"
    total_orders := 3, total_revenue := 240, notes := none
    created_at := 641, synced := false }

def dbC1 : LocalDB :=
  { emptyDB with
      orders := [orderC1], orderItems := [itemC1]
      dailyClosings := [closingC1] }

def remoteItemC1 : RemoteOrderItem :=
  { id := "ri1", order_id := "r77", menu_item_id := "m1", quantity := 3
    unit_price := 10, gst_percentage := 0, gst_amount := 0
    total_price := 30, notes := none }

def remoteOrderC1 : RemoteOrder :=
  { id := "r77", order_number := 77, customer_name := none
    table_number := none, bill_type := "tax_invoice", subtotal := 30
    tax_amount := 0, discount_amount := 0, total_amount := 30
    status := "completed", payment_method := some "cash", created_by := none
    created_at := 660, updated_at := 660
    order_items := [remoteItemC1] }

def remoteClosingC1 : RemoteDailyClosing :=
  { id := "rc1", closing_date := 600, submitted_by := "u1"
    total_orders := 1, total_revenue := 30, notes := none
    created_at := 601, updated_at := 601 }

def remoteC1 : RemoteDB :=
  { menu_items := [menuC3], inventory_items := [], orders := [remoteOrderC1]
    daily_closing_logs := [remoteClosingC1]
    stock_verifications := [] }

def menuLocalC1 : LocalMenuItem :=
  { id := "m9", name := "Draft dish", description := none, price := 25
    category := "mains", gst_percentage := 5, is_available := true
    is_veg := true, display_order := 9, image_url := none, synced := false
    updated_at := 650 }

def invLocalC1 : LocalInventoryItem :=
  { id := "i9", name := "Rice", unit := "kg", current_stock := 12
    minimum_stock := 2, cost_per_unit := 40, is_active := true
    synced := false, updated_at := 650 }

def remoteEmptyC1 : RemoteDB :=
  { menu_items := [], inventory_items := [], orders := []
    daily_closing_logs := [], stock_verifications := [] }

def dbC1x : LocalDB :=
  { emptyDB with menuItems := [menuLocalC1], inventoryItems := [invLocalC1] }

/-- The initial accumulator of the push loop. -/
def pushInit (db : LocalDB) : PushState :=
  { orders := db.orders, orderItems := db.orderItems
    res := { success := 0, failed := 0 } }

def orderC6a : LocalOrder :=
  { id := "local_1_a", order_number := 1, customer_name := none
    table_number := none, bill_type := "tax_invoice", subtotal := 80
    tax_amount := 0, discount_amount := 0, total_amount := 80
    status := "pending", payment_method := none, created_by := none
    created_at := 10, updated_at := 10, synced := false, sync_error := none }

def orderC6b : LocalOrder :=
  { id := "local_2_b", order_number := 2, customer_name := none
    table_number := none, bill_type := "tax_invoice", subtotal := 30
    tax_amount := 0, discount_amount := 0, total_amount := 30
    status := "preparing", payment_method := none, created_by := none
    created_at := 11, updated_at := 11, synced := false, sync_error := none }

def itemC6a : LocalOrderItem :=
  { id := "item_1_a", order_id := "local_1_a", menu_item_id := "m1"
    menu_item_name := "Tea", quantity := 8, unit_price := 10
    gst_percentage := 0, gst_amount := 0, total_price := 80, notes := none
    synced := false }

def dbC6 : LocalDB :=
  { emptyDB with orders := [orderC6a, orderC6b], orderItems := [itemC6a] }

def envC6 : PushEnv :=
  { insertOrder := fun p =>
      if p.status == "pending" then Except.ok ("rA", 77)
      else Except.ok ("r9", 9)
    insertItems := fun rid _ =>
      if rid == "rA" then Except.error "items insert rejected"
      else Except.ok () }

def orderC2 : LocalOrder :=
  { id := "local_5_q", order_number := 4, customer_name := some "Ravi"
    table_number := some "2", bill_type := "tax_invoice", subtotal := 100
    tax_amount := 5, discount_amount := 0, total_amount := 105
    status := "pending", payment_method := some "upi", created_by := none
    created_at := 500, updated_at := 500, synced := false
    sync_error := some "old error" }

def itemC2 : LocalOrderItem :=
  { id := "item_5_q", order_id := "local_5_q", menu_item_id := "m1"
    menu_item_name := "Tea", quantity := 10, unit_price := 10
    gst_percentage := 5, gst_amount := 5, total_price := 105, notes := none
    synced := false }

def dbC2 : LocalDB :=
  { emptyDB with orders := [orderC2], orderItems := [itemC2] }

def envC2 : PushEnv :=
  { insertOrder := fun _ => Except.ok ("r1", 101)
    insertItems := fun _ _ => Except.ok () }

def stC5 : SyncState :=
  { isSyncing := false
    db := { emptyDB with settings := [{ key := "lastSyncTime", value := 7 }] }
    notes := [] }

def envC5 : FullSyncEnv :=
  { online := true, pushEnv := trivialPushEnv, invEnv := trivialInvEnv
    pull := Except.error "fetch failed", now := 42 }

/-! ## Theorems -/

theorem mem_putBy {α : Type} (key : α → String) (t : List α) (r x : α) :
    x ∈ putBy key t r ↔ x = r ∨ (x ∈ t ∧ key x ≠ key r) := by
  simp [putBy]

theorem filter_key_putBy_of_ne {α : Type} (key : α → String) (t : List α)
    (r : α) (q : String) (h : key r ≠ q) :
    (putBy key t r).filter (fun x => key x == q) =
      t.filter (fun x => key x == q) := by
  have hr : (key r == q) = false := by simp [h]
  simp only [putBy, List.filter_cons, hr, Bool.false_eq_true, if_false,
    List.filter_filter]
  refine List.filter_congr (fun a _ => ?_)
  by_cases h1 : key a = key r <;> by_cases h2 : key a = q <;> simp_all

theorem filter_key_putBy_self {α : Type} (key : α → String) (t : List α)
    (r : α) :
    (putBy key t r).filter (fun x => key x == key r) = [r] := by
  have hnil : (t.filter (fun x => !(key x == key r))).filter
      (fun x => key x == key r) = [] := by
    rw [List.filter_filter]
    refine List.filter_eq_nil_iff.2 (fun a _ => ?_)
    by_cases h1 : key a = key r <;> simp_all
  simp [putBy, List.filter_cons, hnil]

theorem filter_key_delBy_of_ne {α : Type} (key : α → String) (t : List α)
    (k q : String) (h : k ≠ q) :
    (delBy key t k).filter (fun x => key x == q) =
      t.filter (fun x => key x == q) := by
  simp only [delBy, List.filter_filter]
  refine List.filter_congr (fun a _ => ?_)
  by_cases h1 : key a = k <;> by_cases h2 : key a = q <;> simp_all

theorem filter_key_updateBy_of_ne {α : Type} (key : α → String) (t : List α)
    (k q : String) (patch : α → α) (hk : ∀ x, key (patch x) = key x)
    (h : k ≠ q) :
    (updateBy key t k patch).filter (fun x => key x == q) =
      t.filter (fun x => key x == q) := by
  induction t with
  | nil => rfl
  | cons a t ih =>
      simp only [updateBy, List.map_cons, List.filter_cons] at *
      by_cases hak : key a = k
      · by_cases haq : key a = q
        · exact absurd (hak.symm.trans haq) h
        · simp_all [hk]
      · by_cases haq : key a = q <;> simp_all

/-! ## C10 — what `clearLocalDatabase` clears and what it keeps -/

/-- C10: `clearLocalDatabase` clears exactly the orders, orderItems,
dailyClosings, stockVerifications, inventoryTransactions and syncQueue
tables; menuItems, inventoryItems, recipes and settings (hence the stored
last-sync timestamp) are left unchanged. -/
theorem C10_clearLocalDatabase_frame (db : LocalDB) :
    (clearLocalDatabase db).orders = [] ∧
    (clearLocalDatabase db).orderItems = [] ∧
    (clearLocalDatabase db).dailyClosings = [] ∧
    (clearLocalDatabase db).stockVerifications = [] ∧
    (clearLocalDatabase db).inventoryTransactions = [] ∧
    (clearLocalDatabase db).syncQueue = [] ∧
    (clearLocalDatabase db).menuItems = db.menuItems ∧
    (clearLocalDatabase db).inventoryItems = db.inventoryItems ∧
    (clearLocalDatabase db).recipes = db.recipes ∧
    (clearLocalDatabase db).settings = db.settings ∧
    getLastSyncTime (clearLocalDatabase db) = getLastSyncTime db :=
  ⟨rfl, rfl, rfl, rfl, rfl, rfl, rfl, rfl, rfl, rfl, rfl⟩

/-! ## C4 — single-flight guard of `performFullSync` -/

/-- C4: calling `performFullSync` while the module-level `isSyncing` flag
is set returns immediately as a no-op: the state is unchanged and no phase
(no push, no pull, no timestamp update) is executed, so the concurrent
trigger is dropped, not queued. -/
theorem C4_single_flight_guard (env : FullSyncEnv) (st : SyncState)
    (h : st.isSyncing = true) :
    performFullSync env st = (st, []) := by
  simp [performFullSync, h]

/-- C4 witness: a concrete in-progress state and environment. -/
theorem C4_single_flight_guard_witness :
    performFullSync envC4 stC4 = (stC4, []) :=
  C4_single_flight_guard envC4 stC4 rfl

/-- C3 counterexample: a last-sync timestamp (100) exists, yet the pull
fetches — and applies to the local store — a remote menu row whose
`updated_at` (10) is not greater than that timestamp; the pull queries
carry no `updated_at` bound at all. -/
theorem C3_counterexample :
    getLastSyncTime dbC3 = some 100 ∧
    menuC3 ∈ menuQuery remoteC3 ∧
    menuC3.updated_at ≤ 100 ∧
    remoteMenuToLocal 200 menuC3 ∈
      (pullLatestFromSupabase remoteC3 200 dbC3).menuItems := by
  decide

/-- C3 (amended): `pullLatestFromSupabase` never consults the last-sync
timestamp — it neither reads nor writes the settings table, and its result
is unchanged under any replacement of that table — and what it fetches is
always the bounded snapshot: the available menu items, the active
inventory items, the orders created within the trailing seven days, and at
most the thirty most recent daily closings, whether or not a timestamp
exists. -/
theorem C3_pull_always_snapshot (r : RemoteDB) (now : Nat) (db : LocalDB)
    (s : List AppSetting) :
    (pullLatestFromSupabase r now db).settings = db.settings ∧
    pullLatestFromSupabase r now { db with settings := s } =
      { pullLatestFromSupabase r now db with settings := s } ∧
    menuQuery r = r.menu_items.filter (fun m => m.is_available) ∧
    inventoryQuery r = r.inventory_items.filter (fun i => i.is_active) ∧
    ordersQuery r now = r.orders.filter (fun o => now - weekMs ≤ o.created_at) ∧
    (closingsQuery r).length ≤ 30 := by
  refine ⟨rfl, rfl, rfl, rfl, rfl, ?_⟩
  simp only [closingsQuery]
  exact List.length_take_le 30 (r.daily_closing_logs.foldr insertClosingDesc [])

/-- C7: evaluation at the failing input.  The id minted by
`createOrderOffline` carries the `local_` marker, but the status-update
guard only checks for `offline_`; so while the order is unsynced and the
device online, updating its status issues a remote `orders` update keyed
by the locally-minted id, and then marks the row `synced = true` although
it was never remapped. -/
theorem C7_local_id_sent_to_remote :
    strStarts "local_" "local_1700_abc" = true ∧
    isOfflineId "local_1700_abc" = false ∧
    orderC7.synced = false ∧
    (updateOrderStatus envC7 "local_1700_abc" "ready" 1800 dbC7).2 =
      [{ order_id := "local_1700_abc", status := "ready" }] ∧
    (updateOrderStatus envC7 "local_1700_abc" "ready" 1800 dbC7).1.orders =
      [{ orderC7 with status := "ready", synced := true, updated_at := 1800 }] := by
  decide

/-! ## C9 — cache TTL behaviour -/

theorem find?_fst_filter_ne {α : Type} (l : List (String × α)) (k q : String)
    (h : q ≠ k) :
    (l.filter (fun p => !(p.1 == k))).find? (fun p => p.1 == q) =
      l.find? (fun p => p.1 == q) := by
  induction l with
  | nil => rfl
  | cons a l ih =>
      by_cases h1 : a.1 = k <;> by_cases h2 : a.1 = q <;>
        simp_all [List.filter_cons, List.find?_cons]

theorem lsGet_lsSet_self {α : Type} (st : LocalStorage α) (k : String)
    (v : LSValue α) :
    lsGet (lsSet st k v) k = some v := by
  simp [lsGet, lsSet, List.find?_cons]

theorem lsGet_lsSet_of_ne {α : Type} (st : LocalStorage α) (k k' : String)
    (v : LSValue α) (h : k' ≠ k) :
    lsGet (lsSet st k v) k' = lsGet st k' := by
  simp only [lsGet, lsSet]
  rw [List.find?_cons_of_neg _ (by simp [Ne.symm h]), find?_fst_filter_ne _ _ _ h]

theorem cacheKeyOf_ne_expiryKeyOf (key : String) :
    cacheKeyOf key ≠ expiryKeyOf key := by
  intro h
  have hl := congrArg String.length h
  rw [cacheKeyOf, expiryKeyOf, String.length_append, String.length_append] at hl
  have h1 : ("kitchen-pos-cache-" : String).length = 18 := rfl
  have h2 : ("kitchen-pos-expiry-" : String).length = 19 := rfl
  rw [h1, h2] at hl
  omega

/-- C9 (amended): after `setCache key v` at time `t0`, a `getCache key` at
time `t` returns `v` and leaves the storage untouched as long as
`t ≤ t0 + TTL(key)`; only strictly after the expiry instant
(`t0 + TTL(key) < t`) does it miss and remove both the data and the expiry
entry.  (The claim's "once the TTL has elapsed" boundary is off by one
instant: at `t = t0 + TTL` the code still returns the value, because the
eviction test is `Date.now() > expiry`, not `≥`.) -/
theorem C9_cache_ttl {α : Type} (key : String) (v : α) (t0 t : Nat)
    (st : LocalStorage α) :
    getCache key t (setCache key v t0 st) =
      if t0 + cacheDuration key < t then
        (none, lsRemove (lsRemove (setCache key v t0 st) (cacheKeyOf key))
          (expiryKeyOf key))
      else (some v, setCache key v t0 st) := by
  have hne : cacheKeyOf key ≠ expiryKeyOf key := cacheKeyOf_ne_expiryKeyOf key
  by_cases hlt : t0 + cacheDuration key < t
  · simp only [getCache, setCache, lsGet_lsSet_self, if_pos hlt]
  · simp only [getCache, setCache, lsGet_lsSet_self, if_neg hlt]
    rw [lsGet_lsSet_of_ne _ _ _ _ hne, lsGet_lsSet_self]

/-- C9 counterexample: with the configured menu TTL of one hour
(3600000 ms), caching at time 0 and reading at exactly time 3600000 — the
instant the TTL has elapsed — still returns the value and removes nothing,
where the claim requires a miss and eviction. -/
theorem C9_counterexample :
    cacheDuration "menuItems" = 3600000 ∧
    (getCache "menuItems" 3600000
      (setCache "menuItems" "X" 0 ([] : LocalStorage String))).1 = some "X" ∧
    (getCache "menuItems" 3600000
      (setCache "menuItems" "X" 0 ([] : LocalStorage String))).2 =
      setCache "menuItems" "X" 0 ([] : LocalStorage String) := by
  decide

/-! ## C8 — offline order creation -/

/-- C8 (amended): `createOrderOffline` mints the id
`local_` + timestamp + `_` + random suffix, assigns as order number the
maximum existing local order number plus one — with no reserved high-range
offset, so it can collide with remote-issued numbers — inserts the order
and its items with `synced = false`, and returns the new order from local
state alone, without any remote confirmation. -/
theorem C8_createOrderOffline_local_insert (order : NewOrderInput)
    (items : List NewOrderItemInput) (nowMs : Nat) (rand : String)
    (itemRand : Nat → String) (db : LocalDB) :
    (createOrderOffline order items nowMs rand itemRand db).1.id =
      "local_" ++ toString nowMs ++ "_" ++ rand ∧
    (createOrderOffline order items nowMs rand itemRand db).1.order_number =
      (db.orders.foldl (fun m o => max m o.order_number) 0) + 1 ∧
    (createOrderOffline order items nowMs rand itemRand db).1.synced = false ∧
    (createOrderOffline order items nowMs rand itemRand db).1.created_at = nowMs ∧
    (createOrderOffline order items nowMs rand itemRand db).2.orders =
      (createOrderOffline order items nowMs rand itemRand db).1 :: db.orders ∧
    (createOrderOffline order items nowMs rand itemRand db).2.orderItems =
      mkOfflineItems (mintLocalOrderId nowMs rand) nowMs itemRand items ++
        db.orderItems ∧
    (mkOfflineItems (mintLocalOrderId nowMs rand) nowMs itemRand items).all
      (fun it => it.order_id == mintLocalOrderId nowMs rand &&
        it.synced == false) = true := by
  refine ⟨rfl, rfl, rfl, rfl, rfl, rfl, ?_⟩
  simp only [List.all_eq_true, mkOfflineItems, List.mem_map]
  rintro it ⟨⟨i, inp⟩, hmem, rfl⟩
  simp [mkOfflineItem]

/-- C8 counterexample: with one existing order numbered 5,
`createOrderOffline` assigns 6 — far below the reserved offline range
starting at 9000000 that the claim requires (the helper in
offlineDatabase.ts that applies that offset is not the one
`createOrderOffline` calls). -/
theorem C8_counterexample :
    (createOrderOffline orderInpC8 [] 1700 "ab" (fun _ => "cd") dbC8).1.order_number = 6 ∧
    (createOrderOffline orderInpC8 [] 1700 "ab" (fun _ => "cd") dbC8).1.order_number < 9000000 ∧
    OfflineDatabase.generateOrderNumber dbC8.orders = 9000000 := by
  decide

/-! ## C1 — which unsynced rows a pull cycle preserves -/

theorem contains_eq_true_of_mem {a : String} {l : List String} (h : a ∈ l) :
    l.contains a = true :=
  List.elem_eq_true_of_mem h

theorem not_mem_of_contains_eq_false {a : String} {l : List String}
    (h : l.contains a = false) : a ∉ l := by
  intro hm
  have hh := List.elem_eq_true_of_mem hm
  rw [List.contains] at h
  rw [hh] at h
  cases h

theorem filter_key_foldl_putBy_of_ne {α β : Type} (key : α → String)
    (f : β → α) (l : List β) (q : String) :
    (∀ b ∈ l, key (f b) ≠ q) →
    ∀ t : List α,
      ((l.foldl (fun acc b => putBy key acc (f b)) t).filter
        (fun x => key x == q)) = t.filter (fun x => key x == q) := by
  induction l with
  | nil => intro _ t; rfl
  | cons b l ih =>
      intro h t
      rw [List.foldl_cons, ih (fun c hc => h c (List.mem_cons_of_mem _ hc))]
      exact filter_key_putBy_of_ne key t (f b) q (h b (List.mem_cons_self _ _))

theorem applyPulledOrder_foldl_orders_filter (unsyncedIds : List String)
    (l : List RemoteOrder) (q : String) (hq : q ∈ unsyncedIds) :
    ∀ st : List LocalOrder × List LocalOrderItem,
      ((l.foldl (applyPulledOrder unsyncedIds) st).1.filter
        (fun x => x.id == q)) = st.1.filter (fun x => x.id == q) := by
  induction l with
  | nil => intro st; rfl
  | cons ro l ih =>
      intro st
      rw [List.foldl_cons, ih]
      by_cases hc : unsyncedIds.contains ro.id = true
      · simp only [applyPulledOrder, hc, if_true]
      · have hne : ro.id ≠ q := by
          intro e
          exact not_mem_of_contains_eq_false (Bool.eq_false_iff.2 hc ▸ rfl)
            (e ▸ hq)
        simp only [applyPulledOrder, hc, if_false, Bool.false_eq_true]
        exact filter_key_putBy_of_ne (fun o => o.id) st.1
          (remoteOrderToLocal ro) q hne

theorem applyPulledOrder_foldl_items_filter (unsyncedIds : List String)
    (l : List RemoteOrder) (q : String) :
    (∀ ro ∈ l, ∀ ri ∈ ro.order_items, ri.id ≠ q) →
    ∀ st : List LocalOrder × List LocalOrderItem,
      ((l.foldl (applyPulledOrder unsyncedIds) st).2.filter
        (fun x => x.id == q)) = st.2.filter (fun x => x.id == q) := by
  induction l with
  | nil => intro _ st; rfl
  | cons ro l ih =>
      intro h st
      rw [List.foldl_cons, ih (fun ro' hr => h ro' (List.mem_cons_of_mem _ hr))]
      by_cases hc : unsyncedIds.contains ro.id = true
      · simp only [applyPulledOrder, hc, if_true]
      · simp only [applyPulledOrder, hc, if_false, Bool.false_eq_true]
        exact filter_key_foldl_putBy_of_ne (fun x => x.id) remoteOrderItemToLocal
          ro.order_items q
          (fun ri hri => h ro (List.mem_cons_self _ _) ri hri) st.2

theorem closings_foldl_filter (unsyncedIds : List String)
    (l : List RemoteDailyClosing) (q : String) (hq : q ∈ unsyncedIds) :
    ∀ t : List LocalDailyClosing,
      ((l.foldl (fun t c =>
          if unsyncedIds.contains c.id then t
          else putBy (fun x => x.id) t (remoteClosingToLocal c)) t).filter
        (fun x => x.id == q)) = t.filter (fun x => x.id == q) := by
  induction l with
  | nil => intro t; rfl
  | cons cc l ih =>
      intro t
      rw [List.foldl_cons, ih]
      by_cases hc : unsyncedIds.contains cc.id = true
      · rw [if_pos hc]
      · have hne : cc.id ≠ q := by
          intro e
          exact not_mem_of_contains_eq_false (Bool.eq_false_iff.2 hc ▸ rfl)
            (e ▸ hq)
        rw [if_neg hc]
        exact filter_key_putBy_of_ne (fun x => x.id) t
          (remoteClosingToLocal cc) q hne

/-- The orders component of a pull result, by definitional unfolding. -/
theorem pull_orders_eq (r : RemoteDB) (now : Nat) (db : LocalDB) :
    (pullLatestFromSupabase r now db).orders =
      ((ordersQuery r now).foldl
        (applyPulledOrder ((db.orders.filter (fun o => !o.synced)).map
          (fun o => o.id)))
        (db.orders, db.orderItems)).1 := rfl

/-- The orderItems component of a pull result, by definitional unfolding. -/
theorem pull_orderItems_eq (r : RemoteDB) (now : Nat) (db : LocalDB) :
    (pullLatestFromSupabase r now db).orderItems =
      ((ordersQuery r now).foldl
        (applyPulledOrder ((db.orders.filter (fun o => !o.synced)).map
          (fun o => o.id)))
        (db.orders, db.orderItems)).2 := rfl

/-- The dailyClosings component of a pull result, by definitional
unfolding. -/
theorem pull_dailyClosings_eq (r : RemoteDB) (now : Nat) (db : LocalDB) :
    (pullLatestFromSupabase r now db).dailyClosings =
      (closingsQuery r).foldl
        (fun t c =>
          if ((db.dailyClosings.filter (fun x => !x.synced)).map
              (fun x => x.id)).contains c.id then t
          else putBy (fun x => x.id) t (remoteClosingToLocal c))
        db.dailyClosings := rfl

/-- C1 (amended): one pull cycle leaves unchanged every unsynced row of the
orders and dailyClosings tables, and every unsynced orderItems row whose id
no fetched remote order item shares; unsynced menuItems and inventoryItems
rows are not protected (the menu pull clears the whole table, and the
inventory pull rebuilds the table from the remote active set, keeping only
`current_stock` for unsynced ids and dropping unsynced rows absent
remotely). -/
theorem C1_pull_preserves_unsynced_orders (r : RemoteDB) (now : Nat)
    (db : LocalDB) (o : LocalOrder) (c : LocalDailyClosing)
    (it : LocalOrderItem)
    (ho : o ∈ db.orders) (hos : o.synced = false)
    (hc : c ∈ db.dailyClosings) (hcs : c.synced = false)
    (_hit : it ∈ db.orderItems) (_hits : it.synced = false)
    (hitid : ∀ ro ∈ ordersQuery r now, ∀ ri ∈ ro.order_items, ri.id ≠ it.id) :
    (pullLatestFromSupabase r now db).orders.filter (fun x => x.id == o.id) =
      db.orders.filter (fun x => x.id == o.id) ∧
    (pullLatestFromSupabase r now db).orderItems.filter
        (fun x => x.id == it.id) =
      db.orderItems.filter (fun x => x.id == it.id) ∧
    (pullLatestFromSupabase r now db).dailyClosings.filter
        (fun x => x.id == c.id) =
      db.dailyClosings.filter (fun x => x.id == c.id) := by
  refine ⟨?_, ?_, ?_⟩
  · rw [pull_orders_eq]
    exact applyPulledOrder_foldl_orders_filter _ _ _
      (List.mem_map.2 ⟨o, List.mem_filter.2 ⟨ho, by simp [hos]⟩, rfl⟩) _
  · rw [pull_orderItems_eq]
    exact applyPulledOrder_foldl_items_filter _ _ _ hitid _
  · rw [pull_dailyClosings_eq]
    exact closings_foldl_filter _ _ _
      (List.mem_map.2 ⟨c, List.mem_filter.2 ⟨hc, by simp [hcs]⟩, rfl⟩) _

/-- C1 witness: a concrete unsynced order, order item and daily closing
survive a pull that applies a non-trivial remote snapshot. -/
theorem C1_pull_preserves_unsynced_orders_witness :
    (pullLatestFromSupabase remoteC1 700 dbC1).orders.filter
        (fun x => x.id == orderC1.id) =
      dbC1.orders.filter (fun x => x.id == orderC1.id) ∧
    (pullLatestFromSupabase remoteC1 700 dbC1).orderItems.filter
        (fun x => x.id == itemC1.id) =
      dbC1.orderItems.filter (fun x => x.id == itemC1.id) ∧
    (pullLatestFromSupabase remoteC1 700 dbC1).dailyClosings.filter
        (fun x => x.id == closingC1.id) =
      dbC1.dailyClosings.filter (fun x => x.id == closingC1.id) :=
  C1_pull_preserves_unsynced_orders remoteC1 700 dbC1 orderC1 closingC1 itemC1
    (by decide) (by decide) (by decide) (by decide) (by decide) (by decide)
    (by decide)

/-- C1 counterexample: a pull cycle deletes unsynced menuItems and
inventoryItems rows outright — the menu block clears the whole table and
the inventory block rebuilds it from the remote active set — so the claim's
protection does not hold for those two tables. -/
theorem C1_counterexample :
    menuLocalC1.synced = false ∧
    invLocalC1.synced = false ∧
    menuLocalC1 ∈ dbC1x.menuItems ∧
    invLocalC1 ∈ dbC1x.inventoryItems ∧
    (pullLatestFromSupabase remoteEmptyC1 700 dbC1x).menuItems = [] ∧
    (pullLatestFromSupabase remoteEmptyC1 700 dbC1x).inventoryItems = [] := by
  decide

/-! ## Push-loop lemmas shared by the remap and error-isolation claims -/

theorem pushAttempt_error_of_insertOrder (env : PushEnv) (o : LocalOrder)
    (items : List LocalOrderItem) (e : String)
    (h : env.insertOrder (orderPayload o) = Except.error e) :
    pushAttempt env o items = Except.error e := by
  unfold pushAttempt
  rw [h]

theorem pushAttempt_ok_of (env : PushEnv) (o : LocalOrder) (rid : String)
    (rnum : Nat) (hok : env.insertOrder (orderPayload o) = Except.ok (rid, rnum))
    (hitems : ∀ ps, env.insertItems rid ps = Except.ok ())
    (items : List LocalOrderItem) :
    pushAttempt env o items = Except.ok (rid, rnum) := by
  unfold pushAttempt
  rw [hok]
  by_cases he : (items.map (orderItemPayload rid)).isEmpty = true
  · simp [itemsInsertResult, he]
  · simp [itemsInsertResult, he, hitems]

theorem pushAttempt_ok_inv (env : PushEnv) (o : LocalOrder)
    (items : List LocalOrderItem) (rid : String) (n : Nat)
    (hres : pushAttempt env o items = Except.ok (rid, n)) :
    env.insertOrder (orderPayload o) = Except.ok (rid, n) := by
  unfold pushAttempt at hres
  cases h : env.insertOrder (orderPayload o) with
  | error e => rw [h] at hres; simp at hres
  | ok p =>
      obtain ⟨a, b⟩ := p
      rw [h] at hres
      dsimp only at hres
      cases hif : itemsInsertResult env a (items.map (orderItemPayload a)) with
      | error e => rw [hif] at hres; simp at hres
      | ok u =>
          rw [hif] at hres
          simp only [Except.ok.injEq, Prod.mk.injEq] at hres
          rw [hres.1, hres.2]

theorem pushOrderStep_orders_filter_of_ne (env : PushEnv) (st : PushState)
    (o' : LocalOrder) (q : String) (h1 : o'.id ≠ q)
    (h2 : ∀ items rid n, pushAttempt env o' items = Except.ok (rid, n) →
      rid ≠ q) :
    (pushOrderStep env st o').orders.filter (fun x => x.id == q) =
      st.orders.filter (fun x => x.id == q) := by
  simp only [pushOrderStep]
  cases hres : pushAttempt env o'
      (st.orderItems.filter (fun it => it.order_id == o'.id)) with
  | error e =>
      exact filter_key_updateBy_of_ne _ st.orders o'.id q _ (fun x => rfl) h1
  | ok p =>
      obtain ⟨rid, n⟩ := p
      exact (filter_key_putBy_of_ne _ _ _ q (h2 _ rid n hres)).trans
        (filter_key_delBy_of_ne _ st.orders o'.id q h1)

theorem pushOrderStep_res_total (env : PushEnv) (st : PushState)
    (o' : LocalOrder) :
    (pushOrderStep env st o').res.success + (pushOrderStep env st o').res.failed =
      st.res.success + st.res.failed + 1 := by
  simp only [pushOrderStep]
  cases pushAttempt env o'
      (st.orderItems.filter (fun it => it.order_id == o'.id)) with
  | error e => dsimp only; omega
  | ok p => obtain ⟨rid, n⟩ := p; dsimp only; omega

theorem pushOrderStep_res_failed_mono (env : PushEnv) (st : PushState)
    (o' : LocalOrder) :
    st.res.failed ≤ (pushOrderStep env st o').res.failed := by
  simp only [pushOrderStep]
  cases pushAttempt env o'
      (st.orderItems.filter (fun it => it.order_id == o'.id)) with
  | error e => dsimp only; omega
  | ok p => obtain ⟨rid, n⟩ := p; dsimp only; omega

theorem foldl_pushOrderStep_orders_filter (env : PushEnv) (q : String)
    (l : List LocalOrder) :
    (∀ o' ∈ l, o'.id ≠ q ∧ ∀ items rid n,
      pushAttempt env o' items = Except.ok (rid, n) → rid ≠ q) →
    ∀ st : PushState,
      ((l.foldl (pushOrderStep env) st).orders.filter (fun x => x.id == q)) =
        st.orders.filter (fun x => x.id == q) := by
  induction l with
  | nil => intro _ st; rfl
  | cons o' l ih =>
      intro h st
      rw [List.foldl_cons, ih (fun c hc => h c (List.mem_cons_of_mem _ hc))]
      exact pushOrderStep_orders_filter_of_ne env st o' q
        (h o' (List.mem_cons_self _ _)).1 (h o' (List.mem_cons_self _ _)).2

theorem foldl_pushOrderStep_res_total (env : PushEnv) (l : List LocalOrder) :
    ∀ st : PushState,
      (l.foldl (pushOrderStep env) st).res.success +
        (l.foldl (pushOrderStep env) st).res.failed =
      st.res.success + st.res.failed + l.length := by
  induction l with
  | nil => intro st; simp
  | cons o' l ih =>
      intro st
      rw [List.foldl_cons, ih, pushOrderStep_res_total, List.length_cons]
      omega

theorem foldl_pushOrderStep_res_failed_mono (env : PushEnv)
    (l : List LocalOrder) :
    ∀ st : PushState,
      st.res.failed ≤ (l.foldl (pushOrderStep env) st).res.failed := by
  induction l with
  | nil => intro st; exact le_refl _
  | cons o' l ih =>
      intro st
      rw [List.foldl_cons]
      exact le_trans (pushOrderStep_res_failed_mono env st o') (ih _)

theorem foldl_delBy_items_eq_filter (l : List LocalOrderItem) :
    ∀ t : List LocalOrderItem,
      l.foldl (fun acc it => delBy (fun x => x.id) acc it.id) t =
        t.filter (fun x => l.all (fun it => !(x.id == it.id))) := by
  induction l with
  | nil => intro t; simp
  | cons b l ih =>
      intro t
      rw [List.foldl_cons, ih]
      simp only [delBy, List.filter_filter, List.all_cons]
      refine List.filter_congr (fun a _ => ?_)
      rw [Bool.and_comm]

theorem filter_filter_eq_nil {α : Type} (t : List α) (p q : α → Bool)
    (h : t.filter q = []) : (t.filter p).filter q = [] := by
  refine List.filter_eq_nil_iff.2 (fun a ha => ?_)
  exact (List.filter_eq_nil_iff.1 h) a (List.mem_of_mem_filter ha)

theorem pushOrderStep_orderItems_filter_nil (env : PushEnv) (st : PushState)
    (o' : LocalOrder) (oid : String)
    (h : st.orderItems.filter (fun x => x.order_id == oid) = []) :
    (pushOrderStep env st o').orderItems.filter (fun x => x.order_id == oid) =
      [] := by
  simp only [pushOrderStep]
  cases pushAttempt env o'
      (st.orderItems.filter (fun it => it.order_id == o'.id)) with
  | error e => exact h
  | ok p =>
      obtain ⟨rid, n⟩ := p
      rw [foldl_delBy_items_eq_filter]
      exact filter_filter_eq_nil _ _ _ h

theorem foldl_pushOrderStep_orderItems_filter_nil (env : PushEnv)
    (oid : String) (l : List LocalOrder) :
    ∀ st : PushState,
      st.orderItems.filter (fun x => x.order_id == oid) = [] →
      ((l.foldl (pushOrderStep env) st).orderItems.filter
        (fun x => x.order_id == oid)) = [] := by
  induction l with
  | nil => intro st h; exact h
  | cons o' l ih =>
      intro st h
      rw [List.foldl_cons]
      exact ih _ (pushOrderStep_orderItems_filter_nil env st o' oid h)

theorem step_clears_own_items (t : List LocalOrderItem) (oid : String) :
    ((t.filter (fun it => it.order_id == oid)).foldl
      (fun acc it => delBy (fun x => x.id) acc it.id) t).filter
      (fun x => x.order_id == oid) = [] := by
  rw [foldl_delBy_items_eq_filter]
  refine List.filter_eq_nil_iff.2 (fun x hx => ?_)
  intro hxo
  obtain ⟨hxt, hall⟩ := List.mem_filter.1 hx
  have hxmem : x ∈ t.filter (fun it => it.order_id == oid) :=
    List.mem_filter.2 ⟨hxt, hxo⟩
  have hcontra := (List.all_eq_true.1 hall) x hxmem
  simp at hcontra

theorem filter_key_updateBy_self_eq {α : Type} (key : α → String)
    (t : List α) (k : String) (patch : α → α)
    (hk : ∀ x, key (patch x) = key x) :
    (updateBy key t k patch).filter (fun x => key x == k) =
      (t.filter (fun x => key x == k)).map patch := by
  induction t with
  | nil => rfl
  | cons a t ih =>
      rw [updateBy, List.map_cons]
      by_cases h : key a = k
      · rw [if_pos (by simp [h]), List.filter_cons, List.filter_cons,
          if_pos (by simp [hk a, h]), if_pos (by simp [h]), List.map_cons]
        exact congrArg (List.cons (patch a)) ih
      · rw [if_neg (by simp [h]), List.filter_cons, List.filter_cons,
          if_neg (by simp [h]), if_neg (by simp [h])]
        exact ih

theorem filter_key_delBy_self {α : Type} (key : α → String) (t : List α)
    (k : String) :
    (delBy key t k).filter (fun x => key x == k) = [] := by
  rw [delBy, List.filter_filter]
  refine List.filter_eq_nil_iff.2 (fun a _ => ?_)
  by_cases h : key a = k <;> simp [h]

theorem filter_key_eq_singleton {α : Type} (key : α → String) (t : List α)
    (x : α) (hx : x ∈ t) (hnd : (t.map key).Nodup) :
    t.filter (fun y => key y == key x) = [x] := by
  induction t with
  | nil => cases hx
  | cons a t ih =>
      rw [List.map_cons, List.nodup_cons] at hnd
      rcases List.mem_cons.1 hx with rfl | h
      · rw [List.filter_cons, if_pos (by simp)]
        have hnil : t.filter (fun y => key y == key x) = [] := by
          refine List.filter_eq_nil_iff.2 (fun b hb => ?_)
          simp only [beq_iff_eq]
          intro hbe
          exact hnd.1 (hbe ▸ List.mem_map_of_mem key hb)
        rw [hnil]
      · have hne : key a ≠ key x := by
          intro e
          exact hnd.1 (e ▸ List.mem_map_of_mem key h)
        rw [List.filter_cons, if_neg (by simp [hne]), ih h hnd.2]

theorem ne_of_strStarts (p a b : String) (h1 : strStarts p a = true)
    (h2 : strStarts p b = false) : b ≠ a := by
  intro e
  rw [e, h1] at h2
  cases h2

theorem filter_filter_of_imp {α : Type} (t : List α) (p q : α → Bool)
    (h : ∀ x ∈ t, q x = true → p x = true) :
    (t.filter p).filter q = t.filter q := by
  rw [List.filter_filter]
  refine List.filter_congr (fun a ha => ?_)
  cases hq : q a with
  | false => simp [hq]
  | true => simp [hq, h a ha hq]

theorem pushOrderStep_orderItems_sublist (env : PushEnv) (st : PushState)
    (o' : LocalOrder) :
    List.Sublist (pushOrderStep env st o').orderItems st.orderItems := by
  simp only [pushOrderStep]
  cases pushAttempt env o'
      (st.orderItems.filter (fun it => it.order_id == o'.id)) with
  | error e => exact List.Sublist.refl _
  | ok p =>
      obtain ⟨rid, n⟩ := p
      show List.Sublist
        ((st.orderItems.filter (fun it => it.order_id == o'.id)).foldl
          (fun acc it => delBy (fun x => x.id) acc it.id) st.orderItems)
        st.orderItems
      rw [foldl_delBy_items_eq_filter]
      exact List.filter_sublist _

theorem pushOrderStep_orderItems_filter_of_ne (env : PushEnv)
    (st : PushState) (o' : LocalOrder) (oid : String) (h1 : o'.id ≠ oid)
    (hnd : (st.orderItems.map (fun x => x.id)).Nodup) :
    (pushOrderStep env st o').orderItems.filter (fun x => x.order_id == oid) =
      st.orderItems.filter (fun x => x.order_id == oid) := by
  simp only [pushOrderStep]
  cases pushAttempt env o'
      (st.orderItems.filter (fun it => it.order_id == o'.id)) with
  | error e => rfl
  | ok p =>
      obtain ⟨rid, n⟩ := p
      show ((st.orderItems.filter (fun it => it.order_id == o'.id)).foldl
          (fun acc it => delBy (fun x => x.id) acc it.id)
          st.orderItems).filter (fun x => x.order_id == oid) =
        st.orderItems.filter (fun x => x.order_id == oid)
      rw [foldl_delBy_items_eq_filter]
      refine filter_filter_of_imp st.orderItems _ _ ?_
      intro x hx hq
      rw [List.all_eq_true]
      intro it hit
      obtain ⟨hit1, hit2⟩ := List.mem_filter.1 hit
      simp only [beq_iff_eq] at hit2 hq
      have hxne : x ≠ it := by
        intro e
        rw [e] at hq
        exact h1 (hit2.symm.trans hq)
      have hidne : x.id ≠ it.id :=
        fun e => hxne (List.inj_on_of_nodup_map hnd hx hit1 e)
      simp [hidne]

theorem foldl_pushOrderStep_orderItems_inv (env : PushEnv) (oid : String)
    (l : List LocalOrder) :
    (∀ o' ∈ l, o'.id ≠ oid) →
    ∀ st : PushState, ((st.orderItems.map (fun x => x.id)).Nodup) →
      ((l.foldl (pushOrderStep env) st).orderItems.filter
        (fun x => x.order_id == oid) =
        st.orderItems.filter (fun x => x.order_id == oid)) ∧
      (((l.foldl (pushOrderStep env) st).orderItems.map
        (fun x => x.id)).Nodup) := by
  induction l with
  | nil => intro _ st hnd; exact ⟨rfl, hnd⟩
  | cons o' l ih =>
      intro h st hnd
      rw [List.foldl_cons]
      have hnd' : (((pushOrderStep env st o').orderItems.map
          (fun x => x.id)).Nodup) :=
        List.Nodup.sublist
          (List.Sublist.map _ (pushOrderStep_orderItems_sublist env st o')) hnd
      obtain ⟨hf, hn⟩ := ih (fun c hc => h c (List.mem_cons_of_mem _ hc)) _ hnd'
      refine ⟨?_, hn⟩
      rw [hf]
      exact pushOrderStep_orderItems_filter_of_ne env st o' oid
        (h o' (List.mem_cons_self _ _)) hnd

theorem pushAttempt_error_items (env : PushEnv) (o : LocalOrder)
    (rid : String) (n : Nat) (msg : String) (items : List LocalOrderItem)
    (hok : env.insertOrder (orderPayload o) = Except.ok (rid, n))
    (hne : items ≠ [])
    (hfailitems : ∀ ps, ps ≠ [] → env.insertItems rid ps = Except.error msg) :
    pushAttempt env o items = Except.error msg := by
  have hmapne : items.map (orderItemPayload rid) ≠ [] := by
    simpa using hne
  have hres : itemsInsertResult env rid (items.map (orderItemPayload rid)) =
      Except.error msg := by
    unfold itemsInsertResult
    rw [if_neg (fun hh => hmapne (List.isEmpty_iff.1 hh))]
    exact hfailitems _ hmapne
  unfold pushAttempt
  rw [hok]
  dsimp only
  rw [hres]

/-- C6: when the remote push of one unsynced order fails — either the
order insert or the insert of its items rejects (both land in the same
catch) — the push leaves that order's row in place with `synced = false`
and the error message recorded in `sync_error`, continues processing every
other unsynced order (succeeded + failed counts add up to the number of
unsynced orders), and returns the counts instead of throwing. -/
theorem C6_push_failure_isolated (env : PushEnv) (db : LocalDB)
    (o : LocalOrder) (msg : String)
    (ho : o ∈ db.orders) (hos : o.synced = false)
    (hnd : (db.orders.map (fun x => x.id)).Nodup)
    (hitnd : (db.orderItems.map (fun x => x.id)).Nodup)
    (hfail : env.insertOrder (orderPayload o) = Except.error msg ∨
      ∃ rid n, env.insertOrder (orderPayload o) = Except.ok (rid, n) ∧
        (∃ it ∈ db.orderItems, it.order_id = o.id) ∧
        ∀ ps, ps ≠ [] → env.insertItems rid ps = Except.error msg)
    (hfresh : ∀ o' ∈ db.orders, o'.synced = false →
      ∀ rid' n', env.insertOrder (orderPayload o') = Except.ok (rid', n') →
        rid' ≠ o.id) :
    (syncOrdersToSupabase env db).1.orders.filter (fun x => x.id == o.id) =
      [{ o with sync_error := some msg }] ∧
    ({ o with sync_error := some msg } : LocalOrder).synced = false ∧
    (syncOrdersToSupabase env db).2.success +
      (syncOrdersToSupabase env db).2.failed =
      (db.orders.filter (fun x => !x.synced)).length ∧
    1 ≤ (syncOrdersToSupabase env db).2.failed := by
  have hmem : o ∈ db.orders.filter (fun x => !x.synced) :=
    List.mem_filter.2 ⟨ho, by simp [hos]⟩
  obtain ⟨l₁, l₂, hsplit⟩ := List.append_of_mem hmem
  have hsubmem : ∀ o' ∈ db.orders.filter (fun x => !x.synced),
      o' ∈ db.orders ∧ o'.synced = false := by
    intro o' h
    obtain ⟨h1, h2⟩ := List.mem_filter.1 h
    exact ⟨h1, by simpa using h2⟩
  have hsnapnd : ((l₁.map (fun x => x.id)) ++
      o.id :: (l₂.map (fun x => x.id))).Nodup := by
    have hsub : List.Sublist (db.orders.filter (fun x => !x.synced)) db.orders :=
      List.filter_sublist db.orders
    have hs := List.Nodup.sublist (List.Sublist.map (fun x => x.id) hsub) hnd
    rw [hsplit, List.map_append, List.map_cons] at hs
    exact hs
  have hnotmem : o.id ∉ (l₁.map (fun x => x.id)) ++ (l₂.map (fun x => x.id)) :=
    (List.nodup_cons.1 (List.nodup_middle.1 hsnapnd)).1
  have hne₂ : ∀ o' ∈ l₂, o'.id ≠ o.id := by
    intro o' h e
    exact hnotmem (List.mem_append_right _
      (e ▸ List.mem_map_of_mem (fun x => x.id) h))
  have hne₁ : ∀ o' ∈ l₁, o'.id ≠ o.id := by
    intro o' h e
    exact hnotmem (List.mem_append_left _
      (e ▸ List.mem_map_of_mem (fun x => x.id) h))
  have hpair₁ : ∀ o' ∈ l₁, o'.id ≠ o.id ∧ ∀ items rid n,
      pushAttempt env o' items = Except.ok (rid, n) → rid ≠ o.id := by
    intro o' h
    have hm := hsubmem o' (by rw [hsplit]; exact List.mem_append_left _ h)
    exact ⟨hne₁ o' h, fun items rid n hresx =>
      hfresh o' hm.1 hm.2 rid n (pushAttempt_ok_inv env o' items rid n hresx)⟩
  have hpair₂ : ∀ o' ∈ l₂, o'.id ≠ o.id ∧ ∀ items rid n,
      pushAttempt env o' items = Except.ok (rid, n) → rid ≠ o.id := by
    intro o' h
    have hm := hsubmem o' (by
      rw [hsplit]
      exact List.mem_append_right _ (List.mem_cons_of_mem _ h))
    exact ⟨hne₂ o' h, fun items rid n hresx =>
      hfresh o' hm.1 hm.2 rid n (pushAttempt_ok_inv env o' items rid n hresx)⟩
  have hatt : pushAttempt env o
      ((l₁.foldl (pushOrderStep env) (pushInit db)).orderItems.filter
        (fun it => it.order_id == o.id)) = Except.error msg := by
    rcases hfail with hfail | ⟨rid, n, hok, ⟨it, hitmem, hitoid⟩, hfailitems⟩
    · exact pushAttempt_error_of_insertOrder env o _ msg hfail
    · have hinv := foldl_pushOrderStep_orderItems_inv env o.id l₁ hne₁
        (pushInit db) hitnd
      have hmemf : it ∈ (l₁.foldl (pushOrderStep env)
          (pushInit db)).orderItems.filter (fun x => x.order_id == o.id) := by
        rw [hinv.1]
        exact List.mem_filter.2 ⟨hitmem, by simp [hitoid]⟩
      exact pushAttempt_error_items env o rid n msg _ hok
        (List.ne_nil_of_mem hmemf) hfailitems
  have hstep : (pushOrderStep env
      (l₁.foldl (pushOrderStep env) (pushInit db)) o).orders =
      updateBy (fun x => x.id)
        (l₁.foldl (pushOrderStep env) (pushInit db)).orders o.id
        (fun x => { x with sync_error := some msg }) := by
    simp only [pushOrderStep]
    rw [hatt]
  have hstepf : (pushOrderStep env
      (l₁.foldl (pushOrderStep env) (pushInit db)) o).res.failed =
      (l₁.foldl (pushOrderStep env) (pushInit db)).res.failed + 1 := by
    simp only [pushOrderStep]
    rw [hatt]
  refine ⟨?_, hos, ?_, ?_⟩
  · show ((db.orders.filter (fun x => !x.synced)).foldl (pushOrderStep env)
        (pushInit db)).orders.filter (fun x => x.id == o.id) =
      [{ o with sync_error := some msg }]
    rw [hsplit, List.foldl_append, List.foldl_cons]
    rw [foldl_pushOrderStep_orders_filter env o.id l₂ hpair₂]
    rw [hstep]
    rw [filter_key_updateBy_self_eq (fun x : LocalOrder => x.id) _ o.id
      (fun x => { x with sync_error := some msg }) (fun x => rfl)]
    rw [foldl_pushOrderStep_orders_filter env o.id l₁ hpair₁]
    have hpi : (pushInit db).orders = db.orders := rfl
    rw [hpi, filter_key_eq_singleton (fun x : LocalOrder => x.id) db.orders o ho hnd]
    rfl
  · show ((db.orders.filter (fun x => !x.synced)).foldl (pushOrderStep env)
        (pushInit db)).res.success +
      ((db.orders.filter (fun x => !x.synced)).foldl (pushOrderStep env)
        (pushInit db)).res.failed =
      (db.orders.filter (fun x => !x.synced)).length
    rw [foldl_pushOrderStep_res_total env _ (pushInit db)]
    simp [pushInit]
  · show 1 ≤ ((db.orders.filter (fun x => !x.synced)).foldl
        (pushOrderStep env) (pushInit db)).res.failed
    rw [hsplit, List.foldl_append, List.foldl_cons]
    have hmono := foldl_pushOrderStep_res_failed_mono env l₂
      (pushOrderStep env (l₁.foldl (pushOrderStep env) (pushInit db)) o)
    rw [hstepf] at hmono
    omega

/-- C6 witness: two unsynced orders, the first with one item; its order
insert succeeds but the `order_items` insert rejects (the same catch), so
the failed row keeps `synced = false` and records the error, while the
sibling order is still pushed. -/
theorem C6_push_failure_isolated_witness :
    (syncOrdersToSupabase envC6 dbC6).1.orders.filter
        (fun x => x.id == orderC6a.id) =
      [{ orderC6a with sync_error := some "items insert rejected" }] ∧
    ({ orderC6a with sync_error := some "items insert rejected" } :
      LocalOrder).synced = false ∧
    (syncOrdersToSupabase envC6 dbC6).2.success +
      (syncOrdersToSupabase envC6 dbC6).2.failed =
      (dbC6.orders.filter (fun x => !x.synced)).length ∧
    1 ≤ (syncOrdersToSupabase envC6 dbC6).2.failed :=
  C6_push_failure_isolated envC6 dbC6 orderC6a "items insert rejected"
    (by decide) (by decide) (by decide) (by decide)
    (Or.inr ⟨"rA", 77, rfl, ⟨itemC6a, by decide, rfl⟩, fun ps hps => rfl⟩)
    (by
      intro o' ho' hs rid' n' he
      fin_cases ho'
      · simp [envC6, orderPayload, orderC6a] at he
        rw [← he.1]
        decide
      · simp [envC6, orderPayload, orderC6b] at he
        rw [← he.1]
        decide)

/-- C2: after the push phase successfully pushes an unsynced local-origin
order, no orders row remains under the old local-origin id, no orderItems
row remains keyed to it, and exactly one orders row exists under the
remote-assigned id — with the same business fields, the remote-assigned
order number, `synced = true` and `sync_error` cleared. -/
theorem C2_push_remap_correct (env : PushEnv) (db : LocalDB)
    (o : LocalOrder) (rid : String) (rnum : Nat)
    (ho : o ∈ db.orders) (hos : o.synced = false)
    (hnd : (db.orders.map (fun x => x.id)).Nodup)
    (hok : env.insertOrder (orderPayload o) = Except.ok (rid, rnum))
    (hitems : ∀ ps, env.insertItems rid ps = Except.ok ())
    (holocal : strStarts "local_" o.id = true)
    (hremote : ∀ o' ∈ db.orders, o'.synced = false →
      ∀ rid' n', env.insertOrder (orderPayload o') = Except.ok (rid', n') →
        strStarts "local_" rid' = false)
    (hfreshid : ∀ o' ∈ db.orders, o'.id ≠ rid)
    (hdist : ∀ o' ∈ db.orders, o'.synced = false → o'.id ≠ o.id →
      ∀ rid' n', env.insertOrder (orderPayload o') = Except.ok (rid', n') →
        rid' ≠ rid) :
    (syncOrdersToSupabase env db).1.orders.filter (fun x => x.id == o.id) =
      [] ∧
    (syncOrdersToSupabase env db).1.orderItems.filter
      (fun x => x.order_id == o.id) = [] ∧
    (syncOrdersToSupabase env db).1.orders.filter (fun x => x.id == rid) =
      [remappedOrder o rid rnum] := by
  have hmem : o ∈ db.orders.filter (fun x => !x.synced) :=
    List.mem_filter.2 ⟨ho, by simp [hos]⟩
  obtain ⟨l₁, l₂, hsplit⟩ := List.append_of_mem hmem
  have hsubmem : ∀ o' ∈ db.orders.filter (fun x => !x.synced),
      o' ∈ db.orders ∧ o'.synced = false := by
    intro o' h
    obtain ⟨h1, h2⟩ := List.mem_filter.1 h
    exact ⟨h1, by simpa using h2⟩
  have hsnapnd : ((l₁.map (fun x => x.id)) ++
      o.id :: (l₂.map (fun x => x.id))).Nodup := by
    have hsub : List.Sublist (db.orders.filter (fun x => !x.synced)) db.orders :=
      List.filter_sublist db.orders
    have hs := List.Nodup.sublist (List.Sublist.map (fun x => x.id) hsub) hnd
    rw [hsplit, List.map_append, List.map_cons] at hs
    exact hs
  have hnotmem : o.id ∉ (l₁.map (fun x => x.id)) ++ (l₂.map (fun x => x.id)) :=
    (List.nodup_cons.1 (List.nodup_middle.1 hsnapnd)).1
  have hne₂ : ∀ o' ∈ l₂, o'.id ≠ o.id := by
    intro o' h e
    exact hnotmem (List.mem_append_right _
      (e ▸ List.mem_map_of_mem (fun x => x.id) h))
  have hl₂mem : ∀ o' ∈ l₂, o' ∈ db.orders ∧ o'.synced = false := by
    intro o' h
    exact hsubmem o' (by
      rw [hsplit]
      exact List.mem_append_right _ (List.mem_cons_of_mem _ h))
  have hridne : rid ≠ o.id :=
    ne_of_strStarts "local_" o.id rid holocal (hremote o ho hos rid rnum hok)
  have hpair₂ : ∀ o' ∈ l₂, o'.id ≠ o.id ∧ ∀ items rid' n,
      pushAttempt env o' items = Except.ok (rid', n) → rid' ≠ o.id := by
    intro o' h
    have hm := hl₂mem o' h
    refine ⟨hne₂ o' h, fun items rid' n hresx => ?_⟩
    have hins := pushAttempt_ok_inv env o' items rid' n hresx
    exact ne_of_strStarts "local_" o.id rid' holocal
      (hremote o' hm.1 hm.2 rid' n hins)
  have hpair₂' : ∀ o' ∈ l₂, o'.id ≠ rid ∧ ∀ items rid' n,
      pushAttempt env o' items = Except.ok (rid', n) → rid' ≠ rid := by
    intro o' h
    have hm := hl₂mem o' h
    refine ⟨hfreshid o' hm.1, fun items rid' n hresx => ?_⟩
    have hins := pushAttempt_ok_inv env o' items rid' n hresx
    exact hdist o' hm.1 hm.2 (hne₂ o' h) rid' n hins
  have hatt : ∀ items, pushAttempt env o items = Except.ok (rid, rnum) :=
    pushAttempt_ok_of env o rid rnum hok hitems
  have hstep_orders : (pushOrderStep env
      (l₁.foldl (pushOrderStep env) (pushInit db)) o).orders =
      putBy (fun x => x.id)
        (delBy (fun x => x.id)
          (l₁.foldl (pushOrderStep env) (pushInit db)).orders o.id)
        (remappedOrder o rid rnum) := by
    simp only [pushOrderStep]
    rw [hatt]
  have hstep_items : (pushOrderStep env
      (l₁.foldl (pushOrderStep env) (pushInit db)) o).orderItems =
      ((l₁.foldl (pushOrderStep env) (pushInit db)).orderItems.filter
        (fun it => it.order_id == o.id)).foldl
        (fun acc it => delBy (fun x => x.id) acc it.id)
        (l₁.foldl (pushOrderStep env) (pushInit db)).orderItems := by
    simp only [pushOrderStep]
    rw [hatt]
  refine ⟨?_, ?_, ?_⟩
  · show ((db.orders.filter (fun x => !x.synced)).foldl (pushOrderStep env)
        (pushInit db)).orders.filter (fun x => x.id == o.id) = []
    rw [hsplit, List.foldl_append, List.foldl_cons]
    rw [foldl_pushOrderStep_orders_filter env o.id l₂ hpair₂]
    rw [hstep_orders]
    rw [filter_key_putBy_of_ne (fun x : LocalOrder => x.id)
      (delBy (fun x => x.id)
        (l₁.foldl (pushOrderStep env) (pushInit db)).orders o.id)
      (remappedOrder o rid rnum) o.id hridne]
    exact filter_key_delBy_self (fun x : LocalOrder => x.id) _ o.id
  · show ((db.orders.filter (fun x => !x.synced)).foldl (pushOrderStep env)
        (pushInit db)).orderItems.filter (fun x => x.order_id == o.id) = []
    rw [hsplit, List.foldl_append, List.foldl_cons]
    refine foldl_pushOrderStep_orderItems_filter_nil env o.id l₂ _ ?_
    rw [hstep_items]
    exact step_clears_own_items
      (l₁.foldl (pushOrderStep env) (pushInit db)).orderItems o.id
  · show ((db.orders.filter (fun x => !x.synced)).foldl (pushOrderStep env)
        (pushInit db)).orders.filter (fun x => x.id == rid) =
      [remappedOrder o rid rnum]
    rw [hsplit, List.foldl_append, List.foldl_cons]
    rw [foldl_pushOrderStep_orders_filter env rid l₂ hpair₂']
    rw [hstep_orders]
    exact filter_key_putBy_self (fun x : LocalOrder => x.id) _
      (remappedOrder o rid rnum)

/-- C2 witness: a concrete offline order with one item is remapped to the
remote id `r1` and order number 101. -/
theorem C2_push_remap_correct_witness :
    (syncOrdersToSupabase envC2 dbC2).1.orders.filter
      (fun x => x.id == orderC2.id) = [] ∧
    (syncOrdersToSupabase envC2 dbC2).1.orderItems.filter
      (fun x => x.order_id == orderC2.id) = [] ∧
    (syncOrdersToSupabase envC2 dbC2).1.orders.filter
      (fun x => x.id == "r1") = [remappedOrder orderC2 "r1" 101] :=
  C2_push_remap_correct envC2 dbC2 orderC2 "r1" 101
    (by decide) (by decide) (by decide) rfl (fun ps => rfl) (by decide)
    (by
      intro o' h hs rid' n' he
      simp only [envC2, Except.ok.injEq, Prod.mk.injEq] at he
      rw [← he.1]
      decide)
    (by intro o' h; fin_cases h; decide)
    (by
      intro o' h hs hne rid' n' he
      fin_cases h
      exact absurd rfl hne)

/-! ## C5 — pull failure leaves the last-sync timestamp alone -/

theorem syncOrdersToSupabase_settings (env : PushEnv) (db : LocalDB) :
    (syncOrdersToSupabase env db).1.settings = db.settings := rfl

theorem syncInventoryToSupabase_settings (env : InventoryPushEnv) (now : Nat)
    (db : LocalDB) :
    (syncInventoryToSupabase env now db).1.settings = db.settings := rfl

/-- C5: when the pull phase throws, `performFullSync` leaves the settings
table — hence the last-sync timestamp — unchanged, runs no timestamp
phase, clears the in-progress flag, reports the error to listeners as a
status value, and (being a total function of the environment, for any push
outcome) never propagates the exception. -/
theorem C5_pull_failure_no_timestamp (env : FullSyncEnv) (st : SyncState)
    (e : String) (h1 : st.isSyncing = false) (h2 : env.online = true)
    (h3 : env.pull = Except.error e) :
    (performFullSync env st).1.db.settings = st.db.settings ∧
    getLastSyncTime (performFullSync env st).1.db = getLastSyncTime st.db ∧
    (performFullSync env st).2 =
      [SyncPhase.pushOrders, SyncPhase.pushInventory] ∧
    (performFullSync env st).1.isSyncing = false ∧
    (performFullSync env st).1.notes.any (fun n => n.error == some e) =
      true := by
  have hsettings : (performFullSync env st).1.db.settings = st.db.settings := by
    simp [performFullSync, h1, h2, h3, notifySyncStatus,
      syncOrdersToSupabase_settings, syncInventoryToSupabase_settings]
  refine ⟨hsettings, ?_, ?_, ?_, ?_⟩
  · simp only [getLastSyncTime, hsettings]
  · simp [performFullSync, h1, h2, h3]
  · simp [performFullSync, h1, h2, h3, notifySyncStatus]
  · simp [performFullSync, h1, h2, h3, notifySyncStatus, mkSyncStatus]

/-- C5 witness: a concrete idle state with an existing timestamp, an
online environment whose pull rejects. -/
theorem C5_pull_failure_no_timestamp_witness :
    (performFullSync envC5 stC5).1.db.settings = stC5.db.settings ∧
    getLastSyncTime (performFullSync envC5 stC5).1.db =
      getLastSyncTime stC5.db ∧
    (performFullSync envC5 stC5).2 =
      [SyncPhase.pushOrders, SyncPhase.pushInventory] ∧
    (performFullSync envC5 stC5).1.isSyncing = false ∧
    (performFullSync envC5 stC5).1.notes.any
      (fun n => n.error == some "fetch failed") = true :=
  C5_pull_failure_no_timestamp envC5 stC5 "fetch failed" rfl rfl rfl
